import Mathlib

/-!
Shallow embedding of the PhoneAgentV2 patient-intake repository.

The repository has two drivers over the same data model:
* `src/agent.py` — the voice-pipeline variant (namespace `VoiceAgent` below);
* `src/phone_agent.py` — the telephony/webhook variant (namespace `PhoneAgent`).

Python datetimes are modelled as natural numbers counting minutes since an
epoch (a day is 1440 minutes); `datetime.now()` becomes an arbitrary `now : Nat`.
`random.randint` / `random.choice` / `random.sample` draws are passed in as
explicit parameters, so every theorem quantifies over the possible draws.
Formatting of a datetime by `strftime` is rendered abstractly (`toString` of the
minute count for the slot, the day ordinal for a date): the claims under proof
concern counts, ordering and ranges of the underlying datetimes, never the
calendar text.
-/

set_option maxRecDepth 4000

/-- Python's substring test `sub in hay`, on lists (used with `List Char` for
strings and with `List String` for word sequences). `"" in s` is `True` in
Python, matched by the `isEmpty`/`isPrefixOf` base cases. -/
def containsSub {α : Type} [BEq α] (sub : List α) : List α → Bool
  | [] => sub.isEmpty
  | c :: rest => sub.isPrefixOf (c :: rest) || containsSub sub rest

/-- Split a character list at every separator character, keeping empty pieces:
Python's `str.split(sep)` for a one-character separator. (Structural recursion
over the characters, so that concrete inputs evaluate inside the kernel.) -/
def splitChars (p : Char → Bool) : List Char → List (List Char)
  | [] => [[]]
  | c :: rest =>
      if p c then [] :: splitChars p rest
      else match splitChars p rest with
        | [] => [[c]]
        | w :: ws => (c :: w) :: ws

/-- Python's `str.split()` (no argument): split on whitespace, dropping empty
pieces. -/
def pySplitWhitespace (s : String) : List (List Char) :=
  (splitChars Char.isWhitespace s.data).filter (fun w => !w.isEmpty)

/-- Python's `str.lower()` on the character list (ASCII-relevant here). -/
def lowerChars (l : List Char) : List Char :=
  l.map Char.toLower

/-- Python's `str.strip()` on the character list. -/
def trimChars (l : List Char) : List Char :=
  ((l.dropWhile Char.isWhitespace).reverse.dropWhile Char.isWhitespace).reverse

/-- Python truthiness of `x or ""` for an optional string `x`:
`None or ""` and `"" or ""` are `""`, otherwise the string itself. -/
def pyOrEmpty : Option String → String
  | none => ""
  | some s => s

/-- Python truthiness of an optional string (`None` and `""` are falsy). -/
def optTruthy : Option String → Bool
  | none => false
  | some s => !s.isEmpty

/-- An appointment dict of the telephony variant
(`{"date": ..., "time": ..., "doctor": ...}`); `date` is the day ordinal
(days since the epoch) that `strftime("%A, %B %d")` would render. -/
structure PhoneAppt where
  date : Nat
  time : String
  doctor : String
deriving DecidableEq

/-- The `patient_info` dict, identical in both source files (the telephony
variant later adds an `"appointment"` key, carried here as an `Option` that
starts out `none`). -/
structure PatientInfo where
  name : Option String
  date_of_birth : Option String
  insurance_payer : Option String
  insurance_id : Option String
  has_referral : Option Bool
  referral_physician : Option String
  chief_complaint : Option String
  address : Option String
  address_valid : Bool
  phone : Option String
  email : Option String
  appointment : Option PhoneAppt
  stage : String
deriving DecidableEq

/-- The initial `patient_info` literal of both source files. -/
def initial_patient_info : PatientInfo :=
  { name := none
    date_of_birth := none
    insurance_payer := none
    insurance_id := none
    has_referral := none
    referral_physician := none
    chief_complaint := none
    address := none
    address_valid := false
    phone := none
    email := none
    appointment := none
    stage := "greeting" }

namespace VoiceAgent

/-- Result dict of `validate_address` in `src/agent.py`. -/
structure ValidationResult where
  valid : Bool
  missing_fields : List String
  formatted_address : Option String
  message : String
deriving DecidableEq

/-- The state-token list of `src/agent.py` `validate_address`, verbatim. -/
def state_tokens : List String :=
  ["al", "ak", "az", "ar", "ca", "co", "ct", "de", "fl", "ga",
   "alabama", "alaska", "arizona", "california", "colorado", "florida",
   "ny", "new york", "tx", "texas", "il", "illinois"]

/-- `has_numbers = any(char.isdigit() for char in address)`. -/
def has_numbers (address : String) : Bool :=
  address.data.any Char.isDigit

/-- `has_state = any(state in address_lower for state in [...])`
(substring containment on the lowercased address). -/
def has_state (address : String) : Bool :=
  state_tokens.any (fun st => containsSub st.data (lowerChars address.data))

/-- `has_zip = len([w for w in address.split() if w.isdigit() and len(w) == 5]) > 0`.
`str.isdigit` on a piece of `split()` is "all characters are digits" (the
pieces are never empty). -/
def has_zip (address : String) : Bool :=
  !((pySplitWhitespace address).filter
      (fun w => w.all Char.isDigit && w.length == 5)).isEmpty

/-- `parts = address.split(','); has_city = len(parts) >= 2`. -/
def has_city (address : String) : Bool :=
  2 ≤ (splitChars (fun c => c = ',') address.data).length

/-- `validate_address` of `src/agent.py` (lines 50-88). -/
def validate_address (address : String) : ValidationResult :=
  let missing_fields : List String :=
    (if !has_numbers address then ["street number"] else []) ++
    (if !has_city address then ["city"] else []) ++
    (if !has_state address then ["state"] else []) ++
    (if !has_zip address then ["ZIP code"] else [])
  let is_valid := missing_fields.length == 0
  { valid := is_valid
    missing_fields := missing_fields
    formatted_address := if is_valid then some address else none
    message :=
      if is_valid then "Address is valid"
      else "Address is missing: " ++ String.intercalate ", " missing_fields }

/-- One provider dict of the `AVAILABLE_PROVIDERS` roster. -/
structure Provider where
  name : String
  specialty : String
  location : String
deriving DecidableEq

/-- The fixed 4-provider roster of `src/agent.py`. -/
def AVAILABLE_PROVIDERS : List Provider :=
  [{ name := "Dr. Sarah Johnson", specialty := "Family Medicine", location := "Main Office" },
   { name := "Dr. Michael Chen", specialty := "Internal Medicine", location := "Downtown Clinic" },
   { name := "Dr. Emily Rodriguez", specialty := "Pediatrics", location := "Children's Center" },
   { name := "Dr. James Williams", specialty := "Family Medicine", location := "Main Office" }]

/-- The roster entry at index `i`. -/
def providerAt (i : Fin 4) : Provider :=
  AVAILABLE_PROVIDERS.get ⟨i.1, by simp only [AVAILABLE_PROVIDERS]; exact i.2⟩

/-- One iteration's random draws in `generate_available_times`:
`(day_offset, hour, minute)` for `random.randint(1, 7)`,
`random.choice([9, 10, 11, 14, 15, 16])`, `random.choice([0, 30])`. -/
abbrev Roll := Nat × Nat × Nat

/-- The constraint the random draws of one loop iteration satisfy. -/
def validRoll (x : Roll) : Prop :=
  1 ≤ x.1 ∧ x.1 ≤ 7 ∧ x.2.1 ∈ [9, 10, 11, 14, 15, 16] ∧ x.2.2 ∈ [0, 30]

instance : DecidablePred validRoll := fun x => by
  unfold validRoll
  infer_instance

/-- `appointment_time = (base_date + timedelta(days=day_offset)).replace(hour=h, minute=m)`
with `base_date = now + timedelta(days=1)`, in minutes: add the days, then snap
to that day's midnight and add the chosen time of day. -/
def slotTime (now : Nat) (x : Roll) : Nat :=
  ((now + 1440 + x.1 * 1440) / 1440) * 1440 + x.2.1 * 60 + x.2.2

/-- `generate_available_times` of `src/agent.py` (lines 100-115): one slot per
draw, then `sorted(times)`. -/
def generate_available_times (now : Nat) (rolls : List Roll) : List Nat :=
  List.insertionSort (· ≤ ·) (rolls.map (slotTime now))

/-- `store_patient_name` (agent.py lines 119-127): state effect and returned
confirmation string. -/
def store_patient_name (name : String) (r : PatientInfo) : PatientInfo × String :=
  ({ r with name := some name, stage := "dob" },
   "Thank you, " ++ name ++ ". I have recorded your name.")

/-- `store_date_of_birth` (agent.py lines 130-138). -/
def store_date_of_birth (date_of_birth : String) (r : PatientInfo) : PatientInfo × String :=
  ({ r with date_of_birth := some date_of_birth, stage := "insurance" },
   "Date of birth recorded. Now let's collect your insurance information.")

/-- `store_insurance` (agent.py lines 141-151). -/
def store_insurance (payer_name insurance_id : String) (r : PatientInfo) :
    PatientInfo × String :=
  ({ r with insurance_payer := some payer_name, insurance_id := some insurance_id,
            stage := "referral" },
   "Insurance information saved.")

/-- `store_referral_info` (agent.py lines 154-164):
`referral_physician = physician_name if has_referral else None`. -/
def store_referral_info (has_ref : Bool) (physician_name : Option String)
    (r : PatientInfo) : PatientInfo × String :=
  ({ r with has_referral := some has_ref,
            referral_physician := if has_ref then physician_name else none,
            stage := "complaint" },
   "Referral information recorded.")

/-- `store_chief_complaint` (agent.py lines 167-175). -/
def store_chief_complaint (complaint : String) (r : PatientInfo) : PatientInfo × String :=
  ({ r with chief_complaint := some complaint, stage := "address" },
   "Chief complaint recorded. Now I need your address.")

/-- `store_and_validate_address` (agent.py lines 178-194): stores the address
and the validator verdict; advances `stage` only on a valid address. -/
def store_and_validate_address (address : String) (r : PatientInfo) :
    PatientInfo × String :=
  let validation_result := validate_address address
  let r1 := { r with address := some address,
                     address_valid := validation_result.valid }
  if validation_result.valid then
    ({ r1 with stage := "contact" }, "Address verified and saved.")
  else
    (r1,
     "I'm sorry, but the address appears to be incomplete or invalid. " ++
       validation_result.message ++ ". Please provide the complete address.")

/-- `store_contact_info` (agent.py lines 197-207). -/
def store_contact_info (phone : String) (email : Option String) (r : PatientInfo) :
    PatientInfo × String :=
  ({ r with phone := some phone, email := email, stage := "scheduling" },
   "Contact information saved. Now let me find available appointment times for you.")

/-- One appointment dict produced by `get_available_appointments`; `dt` is the
slot's datetime in minutes (rendered by `strftime` in the source). -/
structure Appt where
  provider : String
  specialty : String
  location : String
  dt : Nat
deriving DecidableEq

/-- The appointments contributed by one selected provider. -/
def apptsFor (now : Nat) (p : Provider) (rolls : List Roll) : List Appt :=
  (generate_available_times now rolls).map
    (fun t => { provider := p.name, specialty := p.specialty, location := p.location, dt := t })

/-- The appointment-accumulation loop over the selected providers (each paired
with its iteration's random draws). -/
def poolAppts (now : Nat) : List (Provider × List Roll) → List Appt
  | [] => []
  | (p, rl) :: rest => apptsFor now p rl ++ poolAppts now rest

/-- The `for i, apt in enumerate(appointments, 1)` listing loop. -/
def formatApptLines : Nat → List Appt → String
  | _, [] => ""
  | i, a :: rest =>
      toString i ++ ". " ++ a.provider ++ " (" ++ a.specialty ++ ") at " ++
        a.location ++ " - " ++ toString a.dt ++ "\n" ++ formatApptLines (i + 1) rest

/-- Output of `get_available_appointments`: the generated appointment dicts,
the new state, the returned listing text, and the list of records handed to a
notification collaborator during the call (none: `src/agent.py`'s
`get_available_appointments`, lines 211-236, sends no email and performs no
dispatch of any kind). -/
structure ApptOutcome where
  appointments : List Appt
  state : PatientInfo
  text : String
  dispatches : List PatientInfo
deriving DecidableEq

/-- `get_available_appointments` of `src/agent.py` (lines 211-236).
`sel` is the outcome of `random.sample(AVAILABLE_PROVIDERS, min(2, 4))`;
`rolls` holds, per selected provider, the draws of its
`generate_available_times(2)` call. -/
def get_available_appointments (now : Nat) (sel : List Provider)
    (rolls : List (List Roll)) (r : PatientInfo) : ApptOutcome :=
  let appointments := poolAppts now (sel.zip rolls)
  { appointments := appointments
    state := { r with stage := "complete" }
    text := "Here are the available appointments:\n" ++ formatApptLines 1 appointments
    dispatches := [] }

end VoiceAgent

namespace PhoneAgent

/-- Result dict of `validate_address` in `src/phone_agent.py` (lines 54-82):
it carries no `missing_fields` key. -/
structure PhoneValidation where
  valid : Bool
  message : String
  formatted_address : Option String
deriving DecidableEq

/-- `has_numbers = any(char.isdigit() for char in address)`. -/
def has_numbers (address : String) : Bool :=
  address.data.any Char.isDigit

/-- `has_comma = "," in address`. -/
def has_comma (address : String) : Bool :=
  containsSub [','] address.data

/-- `word_count = len(address.split())`. -/
def word_count (address : String) : Nat :=
  (pySplitWhitespace address).length

/-- `validate_address` of `src/phone_agent.py` (lines 54-82): valid iff a
digit, a comma, and at least 4 whitespace-separated words. -/
def validate_address (address : String) : PhoneValidation :=
  if has_numbers address && has_comma address && decide (4 ≤ word_count address) then
    { valid := true
      message := "Address appears valid"
      formatted_address := some address }
  else
    let missing : List String :=
      (if !has_numbers address then ["street number"] else []) ++
      (if word_count address < 4 then ["complete address (street, city, state, ZIP)"] else [])
    { valid := false
      message := "Address is missing: " ++ String.intercalate ", " missing
      formatted_address := none }

/-- The doctor menu of `generate_appointments`. -/
def doctors : List String := ["Dr. Smith", "Dr. Johnson", "Dr. Williams"]

/-- The time-of-day menu of `generate_appointments`. -/
def times : List String := ["9:00 AM", "10:30 AM", "2:00 PM", "3:30 PM"]

/-- `generate_appointments` of `src/phone_agent.py` (lines 84-103): three
appointments on the three consecutive days after `base_date = now + 1 day`;
`picks i = (doctor, time)` stands for iteration `i`'s two `random.choice`
draws. The stored date is the day ordinal that `strftime("%A, %B %d")`
renders. -/
def generate_appointments (now : Nat) (picks : Nat → String × String) :
    List PhoneAppt :=
  (List.range 3).map (fun i =>
    { date := (now + 1440 + i * 1440) / 1440
      time := (picks i).2
      doctor := (picks i).1 })

/-- `send_patient_info_email` of `src/phone_agent.py` (lines 106-158): the
whole body sits in `try: ... return True / except: return False`. The SMTP
collaborator is the `smtp` parameter (`.error` = the body raised). Besides
the boolean, the embedding returns the dispatch log: the one record handed
to the collaborator by this call. -/
def send_patient_info_email (smtp : Except String Unit) (patient_data : PatientInfo) :
    Bool × List PatientInfo :=
  match smtp with
  | .ok _ => (true, [patient_data])
  | .error _ => (false, [patient_data])

/-- `store_patient_name` (phone_agent.py lines 164-171). -/
def store_patient_name (name : String) (r : PatientInfo) : PatientInfo × String :=
  ({ r with name := some name, stage := "dob" }, "Stored name: " ++ name)

/-- `store_date_of_birth` (phone_agent.py lines 174-181). -/
def store_date_of_birth (date_of_birth : String) (r : PatientInfo) : PatientInfo × String :=
  ({ r with date_of_birth := some date_of_birth, stage := "insurance" },
   "Stored date of birth: " ++ date_of_birth)

/-- `store_insurance` (phone_agent.py lines 184-193). -/
def store_insurance (payer_name insurance_id : String) (r : PatientInfo) :
    PatientInfo × String :=
  ({ r with insurance_payer := some payer_name, insurance_id := some insurance_id,
            stage := "referral" },
   "Stored insurance: " ++ payer_name ++ ", ID: " ++ insurance_id)

/-- `store_referral_info` (phone_agent.py lines 196-209):
`referral_physician = physician_name or ""` — the physician argument is
copied whether or not `has_referral` is true. -/
def store_referral_info (has_ref : Bool) (physician_name : Option String)
    (r : PatientInfo) : PatientInfo × String :=
  ({ r with has_referral := some has_ref,
            referral_physician := some (pyOrEmpty physician_name),
            stage := "complaint" },
   if has_ref && optTruthy physician_name then
     "Stored referral from Dr. " ++ pyOrEmpty physician_name
   else "Noted: No referral")

/-- `store_chief_complaint` (phone_agent.py lines 212-219). -/
def store_chief_complaint (complaint : String) (r : PatientInfo) : PatientInfo × String :=
  ({ r with chief_complaint := some complaint, stage := "address" },
   "Stored chief complaint: " ++ complaint)

/-- `store_and_validate_address` (phone_agent.py lines 222-236). -/
def store_and_validate_address (address : String) (r : PatientInfo) :
    PatientInfo × String :=
  let validation_result := validate_address address
  let r1 := { r with address := some address,
                     address_valid := validation_result.valid }
  if validation_result.valid then
    ({ r1 with stage := "contact" },
     "Address validated: " ++ address)
  else
    (r1,
     "Address validation failed: " ++ validation_result.message ++
       ". Please provide the complete address.")

/-- `store_contact_info` (phone_agent.py lines 239-252): `email or ""`. -/
def store_contact_info (phone : String) (email : Option String) (r : PatientInfo) :
    PatientInfo × String :=
  ({ r with phone := some phone, email := some (pyOrEmpty email),
            stage := "appointments" },
   if optTruthy email then
     "Stored contact info - Phone: " ++ phone ++ ", Email: " ++ pyOrEmpty email
   else "Stored phone number: " ++ phone)

/-- The `for i, apt in enumerate(appointments, 1)` listing loop of
`get_available_appointments` (the day ordinal stands in for the date text). -/
def formatPhoneLines : Nat → List PhoneAppt → String
  | _, [] => ""
  | i, a :: rest =>
      toString i ++ ". " ++ toString a.date ++ " at " ++ a.time ++ " with " ++
        a.doctor ++ "\n" ++ formatPhoneLines (i + 1) rest

/-- Trailing sentence appended when the email went out. -/
def sentOkNote : String :=
  "\n\n Your information has been sent to our scheduling team. They will contact you shortly to confirm your appointment."

/-- Trailing sentence appended when the email failed. -/
def sentFailNote : String :=
  "\n\n There was an issue sending your information. Please call our office directly to complete your appointment booking."

/-- Output of the telephony `get_available_appointments`. -/
structure PhoneApptOutcome where
  text : String
  state : PatientInfo
  dispatches : List PatientInfo
deriving DecidableEq

/-- `get_available_appointments` of `src/phone_agent.py` (lines 256-272):
generate slots, set `stage = "complete"`, build the listing, send the email
exactly once, and append the outcome sentence to the returned text. -/
def get_available_appointments (now : Nat) (picks : Nat → String × String)
    (smtp : Except String Unit) (r : PatientInfo) : PhoneApptOutcome :=
  let appointments := generate_appointments now picks
  let r1 := { r with stage := "complete" }
  let appointment_text :=
    "Here are the available appointments:\n" ++ formatPhoneLines 1 appointments
  let sent := send_patient_info_email smtp r1
  { text := appointment_text ++ (if sent.1 then sentOkNote else sentFailNote)
    state := r1
    dispatches := sent.2 }

/-- The decline-word list of the `/voice/collect-email` handler. -/
def declineWords : List String := ["no", "nope", "don't", "skip"]

/-- The email-storing branch of `collect_email` (phone_agent.py lines
1043-1059): the input is `SpeechResult` after `.strip().lower()`; the decline
check runs first, and both remaining branches store the response text. -/
def collect_email_store (speech : String) (r : PatientInfo) : PatientInfo :=
  let email_response := lowerChars (trimChars speech.data)
  if declineWords.any (fun w => containsSub w.data email_response) then
    { r with email := some "" }
  else if containsSub "@".data email_response ||
          containsSub "at".data email_response then
    { r with email := some (String.mk email_response) }
  else
    { r with email := some (String.mk email_response) }

/-- The completion tail of `collect_email` (phone_agent.py lines 1062-1077):
generate the slots, set `stage = "complete"`, and store the first slot as the
selected appointment (`selected_appointment = appointments[0]`). -/
def collect_email_completion (now : Nat) (picks : Nat → String × String)
    (r : PatientInfo) : PatientInfo :=
  let appointments := generate_appointments now picks
  { r with stage := "complete", appointment := appointments.head? }

end PhoneAgent

namespace VoiceAgent

/-- The nine tool operations of `src/agent.py` as an operation alphabet (the
language model may invoke them in any order); `list_appointments` carries the
random draws of its run, `summarize` is `get_patient_summary`. -/
inductive Op where
  | submit_name (s : String)
  | submit_dob (s : String)
  | submit_insurance (payer memberId : String)
  | submit_referral (b : Bool) (p : Option String)
  | submit_complaint (s : String)
  | submit_address (s : String)
  | submit_contact (ph : String) (e : Option String)
  | list_appointments (now : Nat) (sel : List Provider) (rolls : List (List Roll))
  | summarize

/-- The state effect of one operation (`get_patient_summary` only reads). -/
def applyOp : Op → PatientInfo → PatientInfo
  | .submit_name s, r => (store_patient_name s r).1
  | .submit_dob s, r => (store_date_of_birth s r).1
  | .submit_insurance payer memberId, r => (store_insurance payer memberId r).1
  | .submit_referral b p, r => (store_referral_info b p r).1
  | .submit_complaint s, r => (store_chief_complaint s r).1
  | .submit_address s, r => (store_and_validate_address s r).1
  | .submit_contact ph e, r => (store_contact_info ph e r).1
  | .list_appointments now sel rolls, r => (get_available_appointments now sel rolls r).state
  | .summarize, r => r

/-- Run a sequence of operations from a starting record. -/
def runOps : List Op → PatientInfo → PatientInfo
  | [], r => r
  | op :: rest, r => runOps rest (applyOp op r)

/-- The end-to-end scenario of spec §8 driven through `src/agent.py`:
the nine operations in canonical order with the scenario's concrete inputs. -/
def scenarioVoice (now : Nat) (sel : List Provider) (rolls : List (List Roll)) :
    ApptOutcome :=
  let r1 := (store_patient_name "Jane Doe" initial_patient_info).1
  let r2 := (store_date_of_birth "01/02/1990" r1).1
  let r3 := (store_insurance "Acme Health" "AH123" r2).1
  let r4 := (store_referral_info false none r3).1
  let r5 := (store_chief_complaint "back pain" r4).1
  let r6 := (store_and_validate_address "1 Elm St, Boston, MA, 02108" r5).1
  let r7 := (store_contact_info "555-1234" none r6).1
  get_available_appointments now sel rolls r7

end VoiceAgent

namespace PhoneAgent

/-- The end-to-end scenario of spec §8 driven through `src/phone_agent.py`. -/
def scenarioPhone (now : Nat) (picks : Nat → String × String)
    (smtp : Except String Unit) : PhoneApptOutcome :=
  let r1 := (store_patient_name "Jane Doe" initial_patient_info).1
  let r2 := (store_date_of_birth "01/02/1990" r1).1
  let r3 := (store_insurance "Acme Health" "AH123" r2).1
  let r4 := (store_referral_info false none r3).1
  let r5 := (store_chief_complaint "back pain" r4).1
  let r6 := (store_and_validate_address "1 Elm St, Boston, MA, 02108" r5).1
  let r7 := (store_contact_info "555-1234" none r6).1
  get_available_appointments now picks smtp r7

end PhoneAgent

/-- The words of a string in the sense of claim C4's "separate word": maximal
runs of alphanumeric characters of the lowercased string. This definition
follows the claim's wording (for comparison against the source), not the
source. -/
def specWordsOf (s : String) : List (List Char) :=
  (splitChars (fun c => !(c.isAlpha || c.isDigit)) (lowerChars s.data)).filter
    (fun w => !w.isEmpty)

/-- A (possibly two-word, e.g. "new york") state token as its word list. -/
def specTokenWords (t : String) : List (List Char) :=
  (splitChars (fun c => c = ' ') t.data).filter (fun w => !w.isEmpty)

/-- Claim C4's "a recognizable US state token appears as a separate word (not
merely as a substring of another word)": the token's words occur consecutively
among the string's words. Follows the claim's wording, not the source. -/
def spec_state_separate_word (s : String) : Bool :=
  VoiceAgent.state_tokens.any (fun t => containsSub (specTokenWords t) (specWordsOf s))

/-- The four checks exactly as claim C4 words them: digit present, state token
as a separate word, 5-digit token, at least 2 comma-separated segments.
Follows the claim's wording, not the source. -/
def spec_c4_valid (s : String) : Bool :=
  VoiceAgent.has_numbers s && spec_state_separate_word s &&
    VoiceAgent.has_zip s && VoiceAgent.has_city s

/-- The check named by each entry of the fixed missing-fields order of
`src/agent.py` `validate_address`. -/
def fieldCheck (address f : String) : Bool :=
  if f = "street number" then VoiceAgent.has_numbers address
  else if f = "city" then VoiceAgent.has_city address
  else if f = "state" then VoiceAgent.has_state address
  else if f = "ZIP code" then VoiceAgent.has_zip address
  else true

/-- C7: validating "Main St" yields valid = false with missing_fields exactly
["street number", "city", "state", "ZIP code"]; and for every input,
missing_fields lists, in that fixed order, precisely the checks that failed. -/
theorem c7_missing_fields_order :
    (VoiceAgent.validate_address "Main St").valid = false ∧
    (VoiceAgent.validate_address "Main St").missing_fields =
      ["street number", "city", "state", "ZIP code"] ∧
    ∀ s : String, (VoiceAgent.validate_address s).missing_fields =
      ["street number", "city", "state", "ZIP code"].filter (fun f => !fieldCheck s f) := by
  refine ⟨by decide, by decide, fun s => ?_⟩
  simp only [VoiceAgent.validate_address]
  cases h1 : VoiceAgent.has_numbers s <;> cases h2 : VoiceAgent.has_city s <;>
    cases h3 : VoiceAgent.has_state s <;> cases h4 : VoiceAgent.has_zip s <;>
      simp [fieldCheck, h1, h2, h3, h4, List.filter]

/-- `containsSub` decides Python's `in`: it holds exactly on contiguous
sublists. -/
lemma containsSub_iff_infix {α : Type} [BEq α] [LawfulBEq α] (sub hay : List α) :
    containsSub sub hay = true ↔ sub <:+: hay := by
  induction hay with
  | nil => simp [containsSub, List.infix_nil, List.isEmpty_iff]
  | cons c rest ih =>
      simp [containsSub, List.infix_cons_iff, List.isPrefixOf_iff_prefix, ih,
        Bool.or_eq_true]

/-- `validate_address` accepts exactly when all four boolean checks pass. -/
lemma valid_eq_checks (s : String) :
    (VoiceAgent.validate_address s).valid =
      (VoiceAgent.has_numbers s && VoiceAgent.has_city s &&
        VoiceAgent.has_state s && VoiceAgent.has_zip s) := by
  simp only [VoiceAgent.validate_address]
  cases h1 : VoiceAgent.has_numbers s <;> cases h2 : VoiceAgent.has_city s <;>
    cases h3 : VoiceAgent.has_state s <;> cases h4 : VoiceAgent.has_zip s <;> simp

lemma has_numbers_iff (s : String) :
    VoiceAgent.has_numbers s = true ↔ ∃ c ∈ s.data, c.isDigit = true := by
  simp [VoiceAgent.has_numbers, List.any_eq_true]

lemma has_state_iff (s : String) :
    VoiceAgent.has_state s = true ↔
      ∃ t ∈ VoiceAgent.state_tokens, t.data <:+: lowerChars s.data := by
  simp [VoiceAgent.has_state, List.any_eq_true, containsSub_iff_infix]

lemma has_zip_iff (s : String) :
    VoiceAgent.has_zip s = true ↔
      ∃ w ∈ pySplitWhitespace s, (∀ c ∈ w, c.isDigit = true) ∧ w.length = 5 := by
  simp [VoiceAgent.has_zip, List.isEmpty_iff, List.filter_eq_nil_iff,
    List.all_eq_true]

lemma has_city_iff (s : String) :
    VoiceAgent.has_city s = true ↔
      2 ≤ (splitChars (fun c => c = ',') s.data).length := by
  simp [VoiceAgent.has_city]

/-- C4 (amended): the voice-pipeline address validator returns valid = true
iff the string has a digit, some US state token occurs as a SUBSTRING of the
lowercased string (not necessarily as a separate word), a 5-digit all-digit
whitespace-separated token is present, and the string has at least 2
comma-separated segments. -/
theorem c4_valid_iff_checks (s : String) :
    (VoiceAgent.validate_address s).valid = true ↔
      ((∃ c ∈ s.data, c.isDigit = true) ∧
       (∃ t ∈ VoiceAgent.state_tokens, t.data <:+: lowerChars s.data) ∧
       (∃ w ∈ pySplitWhitespace s, (∀ c ∈ w, c.isDigit = true) ∧ w.length = 5) ∧
       2 ≤ (splitChars (fun c => c = ',') s.data).length) := by
  rw [valid_eq_checks]
  simp only [Bool.and_eq_true]
  rw [has_numbers_iff, has_city_iff, has_state_iff, has_zip_iff]
  tauto

/-- C4 (counterexample): "123 Falcon St, Springfield, 62704" has no state
token as a separate word ("al" only occurs inside "falcon"), so the claim
demands valid = false, yet the code accepts it — the code's state check is
bare substring containment. -/
theorem c4_counterexample :
    (VoiceAgent.validate_address "123 Falcon St, Springfield, 62704").valid = true ∧
    spec_state_separate_word "123 Falcon St, Springfield, 62704" = false ∧
    spec_c4_valid "123 Falcon St, Springfield, 62704" = false := by decide

/-- One operation of `src/agent.py` preserves "referral_physician non-empty
only if has_referral is true". -/
lemma referral_inv_step (op : VoiceAgent.Op) (r : PatientInfo)
    (h : optTruthy r.referral_physician = true → r.has_referral = some true) :
    optTruthy (VoiceAgent.applyOp op r).referral_physician = true →
      (VoiceAgent.applyOp op r).has_referral = some true := by
  cases op with
  | submit_name s => exact h
  | submit_dob s => exact h
  | submit_insurance a b => exact h
  | submit_referral b p =>
      cases b with
      | false =>
          intro hx
          simp [VoiceAgent.applyOp, VoiceAgent.store_referral_info, optTruthy] at hx
      | true => intro _; rfl
  | submit_complaint s => exact h
  | submit_address s =>
      cases hv : (VoiceAgent.validate_address s).valid <;>
        simp [VoiceAgent.applyOp, VoiceAgent.store_and_validate_address, hv] <;>
          exact h
  | submit_contact ph e => exact h
  | list_appointments now sel rolls => exact h
  | summarize => exact h

/-- The invariant is preserved along any operation sequence. -/
lemma referral_inv_run (ops : List VoiceAgent.Op) (r : PatientInfo)
    (h : optTruthy r.referral_physician = true → r.has_referral = some true) :
    optTruthy (VoiceAgent.runOps ops r).referral_physician = true →
      (VoiceAgent.runOps ops r).has_referral = some true := by
  induction ops generalizing r with
  | nil => exact h
  | cons op rest ih => exact ih _ (referral_inv_step op r h)

/-- C1 (amended): in the voice-pipeline variant (`src/agent.py`),
`store_referral_info(False, physician)` always leaves `referral_physician`
absent whatever the physician argument, and after any sequence of the nine
operations on the fresh record, `referral_physician` is non-empty only if
`has_referral` is true. (The telephony variant copies the physician argument
regardless of the flag, so there the property fails — see the
counterexample.) -/
theorem c1_referral_invariant :
    (∀ (p : Option String) (r : PatientInfo),
       (VoiceAgent.store_referral_info false p r).1.referral_physician = none) ∧
    ∀ ops : List VoiceAgent.Op,
      optTruthy (VoiceAgent.runOps ops initial_patient_info).referral_physician = true →
        (VoiceAgent.runOps ops initial_patient_info).has_referral = some true := by
  refine ⟨fun p r => rfl, fun ops => referral_inv_run ops initial_patient_info ?_⟩
  intro hx
  simp [initial_patient_info, optTruthy] at hx

/-- C1 (witness): the invariant theorem applied to the concrete sequence
[submit_referral true "Dr. Lee"]. -/
theorem c1_witness :
    (VoiceAgent.runOps [VoiceAgent.Op.submit_referral true (some "Dr. Lee")]
        initial_patient_info).has_referral = some true :=
  c1_referral_invariant.2 _ (by decide)

/-- C1 (counterexample): in the telephony variant
(`src/phone_agent.py` `store_referral_info`), submitting has_referral = False
together with physician "Dr. Smith" stores referral_physician = "Dr. Smith":
non-empty although has_referral is false, refuting the claim as stated. -/
theorem c1_counterexample :
    (PhoneAgent.store_referral_info false (some "Dr. Smith")
        initial_patient_info).1.referral_physician = some "Dr. Smith" ∧
    optTruthy (PhoneAgent.store_referral_info false (some "Dr. Smith")
        initial_patient_info).1.referral_physician = true ∧
    (PhoneAgent.store_referral_info false (some "Dr. Smith")
        initial_patient_info).1.has_referral = some false := by
  decide

/-- C8: every operation other than the address step, in both variants,
overwrites its target fields from its inputs alone and sets `stage` to its
fixed successor, for every prior record state (in particular regardless of
the record's current stage). -/
theorem c8_unconditional_overwrite :
    ∀ (r : PatientInfo) (s payer memberId complaint ph : String) (b : Bool)
      (phys e : Option String) (now : Nat) (sel : List VoiceAgent.Provider)
      (rolls : List (List VoiceAgent.Roll)) (picks : Nat → String × String)
      (smtp : Except String Unit),
      ((VoiceAgent.store_patient_name s r).1.name = some s ∧
       (VoiceAgent.store_patient_name s r).1.stage = "dob") ∧
      ((VoiceAgent.store_date_of_birth s r).1.date_of_birth = some s ∧
       (VoiceAgent.store_date_of_birth s r).1.stage = "insurance") ∧
      ((VoiceAgent.store_insurance payer memberId r).1.insurance_payer = some payer ∧
       (VoiceAgent.store_insurance payer memberId r).1.insurance_id = some memberId ∧
       (VoiceAgent.store_insurance payer memberId r).1.stage = "referral") ∧
      ((VoiceAgent.store_referral_info b phys r).1.has_referral = some b ∧
       (VoiceAgent.store_referral_info b phys r).1.referral_physician =
         (if b then phys else none) ∧
       (VoiceAgent.store_referral_info b phys r).1.stage = "complaint") ∧
      ((VoiceAgent.store_chief_complaint complaint r).1.chief_complaint = some complaint ∧
       (VoiceAgent.store_chief_complaint complaint r).1.stage = "address") ∧
      ((VoiceAgent.store_contact_info ph e r).1.phone = some ph ∧
       (VoiceAgent.store_contact_info ph e r).1.email = e ∧
       (VoiceAgent.store_contact_info ph e r).1.stage = "scheduling") ∧
      (VoiceAgent.get_available_appointments now sel rolls r).state.stage = "complete" ∧
      ((PhoneAgent.store_patient_name s r).1.name = some s ∧
       (PhoneAgent.store_patient_name s r).1.stage = "dob") ∧
      ((PhoneAgent.store_date_of_birth s r).1.date_of_birth = some s ∧
       (PhoneAgent.store_date_of_birth s r).1.stage = "insurance") ∧
      ((PhoneAgent.store_insurance payer memberId r).1.insurance_payer = some payer ∧
       (PhoneAgent.store_insurance payer memberId r).1.insurance_id = some memberId ∧
       (PhoneAgent.store_insurance payer memberId r).1.stage = "referral") ∧
      ((PhoneAgent.store_referral_info b phys r).1.has_referral = some b ∧
       (PhoneAgent.store_referral_info b phys r).1.referral_physician =
         some (pyOrEmpty phys) ∧
       (PhoneAgent.store_referral_info b phys r).1.stage = "complaint") ∧
      ((PhoneAgent.store_chief_complaint complaint r).1.chief_complaint = some complaint ∧
       (PhoneAgent.store_chief_complaint complaint r).1.stage = "address") ∧
      ((PhoneAgent.store_contact_info ph e r).1.phone = some ph ∧
       (PhoneAgent.store_contact_info ph e r).1.email = some (pyOrEmpty e) ∧
       (PhoneAgent.store_contact_info ph e r).1.stage = "appointments") ∧
      (PhoneAgent.get_available_appointments now picks smtp r).state.stage = "complete" := by
  intro r s payer memberId complaint ph b phys e now sel rolls picks smtp
  repeat' apply And.intro
  all_goals rfl

/-- C5: submitting an address the validator rejects stores the address with
address_valid = false, returns the same missing-fields message on every
repeat, and leaves stage at "address" — a second call with the same string
returns exactly the first call's state and message (both variants). -/
theorem c5_submit_address_idempotent :
    ∀ (r r2 : PatientInfo) (s t : String),
      (VoiceAgent.validate_address s).valid = false →
      r.stage = "address" →
      (PhoneAgent.validate_address t).valid = false →
      r2.stage = "address" →
      ((VoiceAgent.store_and_validate_address s r).1.stage = "address" ∧
       (VoiceAgent.store_and_validate_address s r).1.address = some s ∧
       (VoiceAgent.store_and_validate_address s r).1.address_valid = false ∧
       VoiceAgent.store_and_validate_address s
           (VoiceAgent.store_and_validate_address s r).1 =
         VoiceAgent.store_and_validate_address s r) ∧
      ((PhoneAgent.store_and_validate_address t r2).1.stage = "address" ∧
       (PhoneAgent.store_and_validate_address t r2).1.address = some t ∧
       (PhoneAgent.store_and_validate_address t r2).1.address_valid = false ∧
       PhoneAgent.store_and_validate_address t
           (PhoneAgent.store_and_validate_address t r2).1 =
         PhoneAgent.store_and_validate_address t r2) := by
  intro r r2 s t hv hs hv2 hs2
  constructor
  · simp [VoiceAgent.store_and_validate_address, hv, hs]
  · simp [PhoneAgent.store_and_validate_address, hv2, hs2]

/-- C5 (witness): the idempotence theorem applied to the invalid address
"Main St" on a record sitting at stage "address". -/
theorem c5_witness :
    (VoiceAgent.store_and_validate_address "Main St"
        { initial_patient_info with stage := "address" }).1.stage = "address" ∧
    (PhoneAgent.store_and_validate_address "Main St"
        { initial_patient_info with stage := "address" }).1.stage = "address" :=
  ⟨(c5_submit_address_idempotent { initial_patient_info with stage := "address" }
      { initial_patient_info with stage := "address" } "Main St" "Main St"
      (by decide) rfl (by decide) rfl).1.1,
   (c5_submit_address_idempotent { initial_patient_info with stage := "address" }
      { initial_patient_info with stage := "address" } "Main St" "Main St"
      (by decide) rfl (by decide) rfl).2.1⟩

/-- C10: in the telephony email-collection step, any spoken response whose
stripped+lowercased text contains one of "no", "nope", "don't", "skip" as a
substring stores email = "" — the decline check runs before the
email-detection check, so this holds even when the response contains "@". -/
theorem c10_decline_overrides_email :
    ∀ (speech w : String) (r : PatientInfo),
      w ∈ PhoneAgent.declineWords →
      containsSub w.data (lowerChars (trimChars speech.data)) = true →
      (PhoneAgent.collect_email_store speech r).email = some "" := by
  intro speech w r hw hsub
  have hany : PhoneAgent.declineWords.any
      (fun d => containsSub d.data (lowerChars (trimChars speech.data))) = true :=
    List.any_eq_true.mpr ⟨w, hw, hsub⟩
  simp [PhoneAgent.collect_email_store, hany]

/-- C10 (witness): the genuine email address "Nora@Example.com" lowercases to
a string containing "no", so it is stored as a decline (empty email), although
it contains "@". -/
theorem c10_witness :
    (PhoneAgent.collect_email_store "Nora@Example.com" initial_patient_info).email
      = some "" :=
  c10_decline_overrides_email "Nora@Example.com" "no" initial_patient_info
    (by decide) (by decide)

/-- Day arithmetic for the telephony generator. -/
lemma phone_date_div (now i : Nat) :
    (now + 1440 + i * 1440) / 1440 = now / 1440 + 1 + i := by
  have h : now + 1440 + i * 1440 = now + (1 + i) * 1440 := by ring
  rw [h, Nat.add_mul_div_right _ _ (by norm_num : (0 : Nat) < 1440)]
  ring

/-- C9: the telephony generator returns exactly 3 appointments whose dates
are deterministic (independent of the random doctor/time draws) and strictly
increasing — the days 1, 2 and 3 after the generation day — and the
completion handler stores the first (earliest-date) appointment in the
record's appointment field while setting stage = "complete". -/
theorem c9_phone_generator_and_selection :
    ∀ (now : Nat) (picks : Nat → String × String) (r : PatientInfo),
      (PhoneAgent.generate_appointments now picks).map (fun a => a.date) =
        [now / 1440 + 1, now / 1440 + 2, now / 1440 + 3] ∧
      List.Chain' (fun a b => a < b)
        ((PhoneAgent.generate_appointments now picks).map (fun a => a.date)) ∧
      ∃ a0, (PhoneAgent.generate_appointments now picks).head? = some a0 ∧
        a0.date = now / 1440 + 1 ∧
        (∀ a ∈ PhoneAgent.generate_appointments now picks, a0.date ≤ a.date) ∧
        (PhoneAgent.collect_email_completion now picks r).appointment = some a0 ∧
        (PhoneAgent.collect_email_completion now picks r).stage = "complete" := by
  intro now picks r
  have hmap : (PhoneAgent.generate_appointments now picks).map (fun a => a.date) =
      [now / 1440 + 1, now / 1440 + 2, now / 1440 + 3] := by
    simp [PhoneAgent.generate_appointments, List.range_succ, phone_date_div]
  refine ⟨hmap, ?_, ?_⟩
  · rw [hmap]
    simp
  · refine ⟨_, rfl, ?_, ?_, rfl, rfl⟩
    · simp [phone_date_div]
    · intro a ha
      simp only [PhoneAgent.generate_appointments, List.range_succ] at ha ⊢
      simp at ha
      rcases ha with rfl | rfl | rfl
      all_goals dsimp only
      all_goals omega

/-- A string with a non-empty left part is non-empty. -/
lemma append_ne_empty_left (a b : String) (h : a.data ≠ []) : a ++ b ≠ "" := by
  intro he
  have hd := congrArg String.data he
  rw [String.data_append] at hd
  exact h (List.append_eq_nil.mp hd).1

/-- C6 (amended): in the telephony variant, `get_available_appointments`
hands the completed record to the email collaborator exactly once, the
collaborator's failure is converted to a boolean (never propagated), and the
appointment listing is returned regardless of the outcome, with the outcome
folded into the trailing sentence. (The voice-pipeline variant performs no
dispatch at all — see the counterexample.) -/
theorem c6_dispatch_once_phone :
    ∀ (now : Nat) (picks : Nat → String × String) (smtp : Except String Unit)
      (r : PatientInfo),
      (PhoneAgent.get_available_appointments now picks smtp r).dispatches =
        [{ r with stage := "complete" }] ∧
      (PhoneAgent.get_available_appointments now picks smtp r).dispatches.length = 1 ∧
      (PhoneAgent.send_patient_info_email smtp { r with stage := "complete" }).1 =
        (match smtp with | .ok _ => true | .error _ => false) ∧
      ∃ trailing,
        (PhoneAgent.get_available_appointments now picks smtp r).text =
          ("Here are the available appointments:\n" ++
            PhoneAgent.formatPhoneLines 1 (PhoneAgent.generate_appointments now picks))
            ++ trailing ∧
        (trailing = PhoneAgent.sentOkNote ∨ trailing = PhoneAgent.sentFailNote) ∧
        trailing = (match smtp with
                    | .ok _ => PhoneAgent.sentOkNote
                    | .error _ => PhoneAgent.sentFailNote) := by
  intro now picks smtp r
  cases smtp with
  | ok u => exact ⟨rfl, rfl, rfl, PhoneAgent.sentOkNote, rfl, Or.inl rfl, rfl⟩
  | error e => exact ⟨rfl, rfl, rfl, PhoneAgent.sentFailNote, rfl, Or.inr rfl, rfl⟩

/-- C6 (counterexample): the voice-pipeline `get_available_appointments`
(src/agent.py lines 211-236) invokes no notification dispatch at all — zero
dispatches, not exactly one — at a concrete run. -/
theorem c6_counterexample :
    (VoiceAgent.get_available_appointments 0
        [VoiceAgent.providerAt 0, VoiceAgent.providerAt 1]
        [[(1, 9, 0), (2, 10, 0)], [(3, 11, 0), (4, 14, 30)]]
        initial_patient_info).dispatches.length = 0 ∧
    ¬ (VoiceAgent.get_available_appointments 0
        [VoiceAgent.providerAt 0, VoiceAgent.providerAt 1]
        [[(1, 9, 0), (2, 10, 0)], [(3, 11, 0), (4, 14, 30)]]
        initial_patient_info).dispatches.length = 1 := by
  decide

/-- C2 (amended): the canonical end-to-end scenario (Jane Doe, dob
01/02/1990, Acme Health/AH123, no referral, back pain, "1 Elm St, Boston,
MA, 02108", 555-1234/no email, then list_appointments) driven through the
telephony variant ends with the address accepted as valid, stage complete and
a non-empty listing; driven through the voice-pipeline variant its validator
rejects the address ("MA"/"Massachusetts" is not in that file's state list),
leaving address_valid = false, although stage still ends complete and the
listing is still non-empty. -/
theorem c2_scenario :
    ∀ (now now2 : Nat) (sel : List VoiceAgent.Provider)
      (rolls : List (List VoiceAgent.Roll)) (picks : Nat → String × String)
      (smtp : Except String Unit),
      (PhoneAgent.scenarioPhone now2 picks smtp).state.address_valid = true ∧
      (PhoneAgent.scenarioPhone now2 picks smtp).state.address =
        some "1 Elm St, Boston, MA, 02108" ∧
      (PhoneAgent.scenarioPhone now2 picks smtp).state.stage = "complete" ∧
      (PhoneAgent.scenarioPhone now2 picks smtp).text ≠ "" ∧
      (VoiceAgent.scenarioVoice now sel rolls).state.address_valid = false ∧
      (VoiceAgent.scenarioVoice now sel rolls).state.stage = "complete" ∧
      (VoiceAgent.scenarioVoice now sel rolls).text ≠ "" := by
  intro now now2 sel rolls picks smtp
  refine ⟨rfl, rfl, rfl, ?_, rfl, rfl, ?_⟩
  · show ("Here are the available appointments:\n" ++
        PhoneAgent.formatPhoneLines 1 (PhoneAgent.generate_appointments now2 picks)) ++
        (if (PhoneAgent.send_patient_info_email smtp _).1 then PhoneAgent.sentOkNote
         else PhoneAgent.sentFailNote) ≠ ""
    apply append_ne_empty_left
    rw [String.data_append]
    intro hd
    exact absurd (List.append_eq_nil.mp hd).1 (by decide)
  · show "Here are the available appointments:\n" ++
        VoiceAgent.formatApptLines 1 _ ≠ ""
    apply append_ne_empty_left
    decide

/-- C2 (counterexample): through the voice-pipeline variant the canonical
scenario does NOT end with the address accepted: its validator's state list
lacks "ma"/"massachusetts", so "1 Elm St, Boston, MA, 02108" is rejected with
missing field "state" and the final record has address_valid = false. -/
theorem c2_counterexample :
    (VoiceAgent.scenarioVoice 0 [VoiceAgent.providerAt 0, VoiceAgent.providerAt 1]
        [[(1, 9, 0), (2, 10, 0)], [(3, 11, 0), (4, 14, 30)]]).state.address_valid
      = false ∧
    (VoiceAgent.validate_address "1 Elm St, Boston, MA, 02108").valid = false ∧
    (VoiceAgent.validate_address "1 Elm St, Boston, MA, 02108").missing_fields
      = ["state"] := by
  decide

/-- The times of day `h*60 + m` reachable by `random.choice([9,10,11,14,15,16])`
and `random.choice([0,30])`, in minutes after midnight. -/
def businessTods : List Nat :=
  [540, 570, 600, 630, 660, 690, 840, 870, 900, 930, 960, 990]

/-- A generated slot in closed form: midnight of day `now/1440 + 1 + day_offset`
plus the chosen time of day. -/
lemma slotTime_eq (now : Nat) (x : VoiceAgent.Roll) :
    VoiceAgent.slotTime now x = (now / 1440 + 1 + x.1) * 1440 + x.2.1 * 60 + x.2.2 := by
  unfold VoiceAgent.slotTime
  rw [phone_date_div]

/-- Every slot drawn from the admissible ranges lands on a business time of
day of a day between 2 and 8 days after the generation day. -/
lemma slotTime_bounds (now : Nat) (x : VoiceAgent.Roll) (hx : VoiceAgent.validRoll x) :
    now / 1440 + 2 ≤ VoiceAgent.slotTime now x / 1440 ∧
    VoiceAgent.slotTime now x / 1440 ≤ now / 1440 + 8 ∧
    VoiceAgent.slotTime now x % 1440 ∈ businessTods := by
  obtain ⟨k, h, m⟩ := x
  obtain ⟨hk1, hk7, hh, hm⟩ := hx
  simp only [List.mem_cons, List.not_mem_nil, or_false] at hh hm
  rw [slotTime_eq]
  dsimp only
  have hb : h * 60 + m < 1440 := by
    rcases hh with rfl | rfl | rfl | rfl | rfl | rfl <;> rcases hm with rfl | rfl <;> omega
  refine ⟨by omega, by omega, ?_⟩
  have hmod : ((now / 1440 + 1 + k) * 1440 + h * 60 + m) % 1440 = h * 60 + m := by
    omega
  rw [hmod]
  rcases hh with rfl | rfl | rfl | rfl | rfl | rfl <;> rcases hm with rfl | rfl <;> decide

/-- The slot datetimes of one provider's appointment sublist. -/
lemma apptsFor_map_dt (now : Nat) (p : VoiceAgent.Provider) (rl : List VoiceAgent.Roll) :
    (VoiceAgent.apptsFor now p rl).map (fun a => a.dt) =
      VoiceAgent.generate_available_times now rl := by
  rw [VoiceAgent.apptsFor, List.map_map]
  exact List.map_id _

/-- The roster's four provider names are pairwise distinct. -/
lemma roster_names_distinct :
    ∀ i j : Fin 4, i ≠ j →
      (VoiceAgent.providerAt i).name ≠ (VoiceAgent.providerAt j).name := by
  decide

/-- C3 (amended): `get_available_appointments` over the fixed 4-provider
roster with 2 sampled providers returns their two per-provider blocks
concatenated — exactly 2 distinct providers with exactly 2 slots each, 4
appointments in total; every slot lies on a business time of day of a day
between 2 and 8 days after the generation day (not within 1-7 days of the
generation time, as claimed); and each provider's block is sorted ascending
by datetime (the concatenated list as a whole is not, as the counterexample
shows). -/
theorem c3_generate_two_providers :
    ∀ (now : Nat) (i j : Fin 4) (rolls1 rolls2 : List VoiceAgent.Roll)
      (r : PatientInfo),
      i ≠ j →
      rolls1.length = 2 → rolls2.length = 2 →
      (∀ x ∈ rolls1, VoiceAgent.validRoll x) →
      (∀ x ∈ rolls2, VoiceAgent.validRoll x) →
      (VoiceAgent.get_available_appointments now
          [VoiceAgent.providerAt i, VoiceAgent.providerAt j] [rolls1, rolls2]
          r).appointments =
        VoiceAgent.apptsFor now (VoiceAgent.providerAt i) rolls1 ++
          VoiceAgent.apptsFor now (VoiceAgent.providerAt j) rolls2 ∧
      (VoiceAgent.get_available_appointments now
          [VoiceAgent.providerAt i, VoiceAgent.providerAt j] [rolls1, rolls2]
          r).appointments.length = 4 ∧
      (VoiceAgent.apptsFor now (VoiceAgent.providerAt i) rolls1).length = 2 ∧
      (VoiceAgent.apptsFor now (VoiceAgent.providerAt j) rolls2).length = 2 ∧
      (∀ a ∈ VoiceAgent.apptsFor now (VoiceAgent.providerAt i) rolls1,
         a.provider = (VoiceAgent.providerAt i).name) ∧
      (∀ a ∈ VoiceAgent.apptsFor now (VoiceAgent.providerAt j) rolls2,
         a.provider = (VoiceAgent.providerAt j).name) ∧
      (VoiceAgent.providerAt i).name ≠ (VoiceAgent.providerAt j).name ∧
      (∀ a ∈ (VoiceAgent.get_available_appointments now
          [VoiceAgent.providerAt i, VoiceAgent.providerAt j] [rolls1, rolls2]
          r).appointments,
         now / 1440 + 2 ≤ a.dt / 1440 ∧ a.dt / 1440 ≤ now / 1440 + 8 ∧
         a.dt % 1440 ∈ businessTods) ∧
      List.Sorted (fun a b => a ≤ b)
        ((VoiceAgent.apptsFor now (VoiceAgent.providerAt i) rolls1).map
          (fun a => a.dt)) ∧
      List.Sorted (fun a b => a ≤ b)
        ((VoiceAgent.apptsFor now (VoiceAgent.providerAt j) rolls2).map
          (fun a => a.dt)) := by
  intro now i j rolls1 rolls2 r hij h1 h2 hv1 hv2
  have hpool : (VoiceAgent.get_available_appointments now
      [VoiceAgent.providerAt i, VoiceAgent.providerAt j] [rolls1, rolls2]
      r).appointments =
      VoiceAgent.apptsFor now (VoiceAgent.providerAt i) rolls1 ++
        VoiceAgent.apptsFor now (VoiceAgent.providerAt j) rolls2 := by
    simp [VoiceAgent.get_available_appointments, VoiceAgent.poolAppts]
  have hlen : ∀ (p : VoiceAgent.Provider) (rl : List VoiceAgent.Roll),
      (VoiceAgent.apptsFor now p rl).length = rl.length := by
    intro p rl
    simp [VoiceAgent.apptsFor, VoiceAgent.generate_available_times,
      List.length_insertionSort]
  have hmem : ∀ (p : VoiceAgent.Provider) (rl : List VoiceAgent.Roll),
      ∀ a ∈ VoiceAgent.apptsFor now p rl,
        a.provider = p.name ∧ ∃ x ∈ rl, a.dt = VoiceAgent.slotTime now x := by
    intro p rl a ha
    simp only [VoiceAgent.apptsFor, List.mem_map] at ha
    obtain ⟨t, ht, rfl⟩ := ha
    refine ⟨rfl, ?_⟩
    rw [VoiceAgent.generate_available_times, List.mem_insertionSort] at ht
    simp only [List.mem_map] at ht
    obtain ⟨x, hx, rfl⟩ := ht
    exact ⟨x, hx, rfl⟩
  refine ⟨hpool, ?_, hlen _ rolls1 ▸ h1 ▸ rfl, hlen _ rolls2 ▸ h2 ▸ rfl, ?_, ?_, ?_, ?_, ?_, ?_⟩
  · rw [hpool, List.length_append, hlen, hlen, h1, h2]
  · intro a ha
    exact (hmem _ rolls1 a ha).1
  · intro a ha
    exact (hmem _ rolls2 a ha).1
  · exact roster_names_distinct i j hij
  · intro a ha
    rw [hpool, List.mem_append] at ha
    rcases ha with ha | ha
    · obtain ⟨-, x, hx, hdt⟩ := hmem _ rolls1 a ha
      rw [hdt]
      exact slotTime_bounds now x (hv1 x hx)
    · obtain ⟨-, x, hx, hdt⟩ := hmem _ rolls2 a ha
      rw [hdt]
      exact slotTime_bounds now x (hv2 x hx)
  · rw [apptsFor_map_dt]
    exact List.sorted_insertionSort _ _
  · rw [apptsFor_map_dt]
    exact List.sorted_insertionSort _ _

/-- C3 (counterexample): a concrete admissible run at generation time 0
(draws day_offset = 7 for the first provider, 1 for the second, all within
`randint(1,7)`'s range) yields datetimes [12060, 12060, 3420, 3420]: the slot
12060 lies more than 7 days (10080 minutes) after generation, and the
returned list is not sorted ascending by datetime. -/
theorem c3_counterexample :
    ((VoiceAgent.get_available_appointments 0
        [VoiceAgent.providerAt 0, VoiceAgent.providerAt 1]
        [[(7, 9, 0), (7, 9, 0)], [(1, 9, 0), (1, 9, 0)]]
        initial_patient_info).appointments.map (fun a => a.dt) =
      [12060, 12060, 3420, 3420]) ∧
    (∀ x ∈ [((7 : Nat), (9 : Nat), (0 : Nat)), (7, 9, 0)], VoiceAgent.validRoll x) ∧
    (∀ x ∈ [((1 : Nat), (9 : Nat), (0 : Nat)), (1, 9, 0)], VoiceAgent.validRoll x) ∧
    ¬ (12060 : Nat) < 7 * 1440 ∧
    ¬ List.Sorted (fun a b => a ≤ b)
        ((VoiceAgent.get_available_appointments 0
            [VoiceAgent.providerAt 0, VoiceAgent.providerAt 1]
            [[(7, 9, 0), (7, 9, 0)], [(1, 9, 0), (1, 9, 0)]]
            initial_patient_info).appointments.map (fun a => a.dt)) := by
  decide

/-- C3 (witness): the amended theorem applied to a concrete admissible run. -/
theorem c3_witness :
    (VoiceAgent.get_available_appointments 0
        [VoiceAgent.providerAt 0, VoiceAgent.providerAt 1]
        [[(1, 9, 0), (2, 9, 0)], [(3, 9, 0), (4, 14, 30)]]
        initial_patient_info).appointments.length = 4 :=
  (c3_generate_two_providers 0 0 1 [(1, 9, 0), (2, 9, 0)] [(3, 9, 0), (4, 14, 30)]
      initial_patient_info (by decide) rfl rfl (by decide) (by decide)).2.1
